import Mathlib

/-!
Verification development for the go-smartmeter repository.

The Go sources are shallowly embedded below:
* `float64` values are modelled as rationals (`ℚ`); the aggregation code only
  adds, divides and rounds, so every quantity stays exactly representable.
* `time.Time` wall-clock instants are modelled by `GoDateTime`
  (year/month/day/hour/minute/second), and where the code subtracts instants
  they are converted to integer nanoseconds since the zero instant
  (January 1 of year 1, `time.Time{}`), exactly Go's `Sub` semantics at the
  one-second resolution the stored timestamp strings carry.
* fallible operations (`time.Parse`, `db.Query`) return `Option`.
* the MySQL backend itself is external to the repository; its behaviour is
  modelled by `DB` (a list of stored rows plus the error, if any, that the
  driver would report for a query), with `WHERE timestamp >= ? AND
  timestamp <= ?` interpreted as the inclusive chronological filter
  `inRangeRows`.
-/

namespace GoSmartmeter

/-! ## Data model: `ReadoutData` (storage.go / the storage source file) -/

/-- Embedding of `ReadoutData` from the storage source file.  The unexported
`timestamp time.Time` cache is the integer-nanosecond encoding of the instant
(`0` is Go's zero `time.Time`); a Go struct literal zeroes every omitted
field, which the defaults reproduce. -/
@[ext]
structure ReadoutData where
  timestamp : Int := 0
  Timestamp : String := ""
  Tarif : Int := 0
  PowerReceived : ℚ := 0
  PowerDelivered : ℚ := 0
  GasReceived : ℚ := 0
  TotalPowerDeliveredLowTarif : ℚ := 0
  TotalPowerDeliveredPeakTarif : ℚ := 0
  TotalPowerReceivedLowTarif : ℚ := 0
  TotalPowerReceivedPeakTarif : ℚ := 0
deriving DecidableEq, Inhabited

/-! ## `DataRetrievalOption` (data-retrieval-option.go) -/

/-- `const All DataRetrievalOption = 0`. -/
def All : Int := 0

/-- `const Gas DataRetrievalOption = 1`. -/
def Gas : Int := 1

/-- `const Power DataRetrievalOption = 2`. -/
def Power : Int := 2

/-- `const Totals DataRetrievalOption = 4`. -/
def Totals : Int := 4

/-- Embedding of `NewDataRetrievalOption` (data-retrieval-option.go lines
25-30): `if i >= int(Gas+Power+Totals) || i <= int(All) { return All };
return DataRetrievalOption(i)`. -/
def NewDataRetrievalOption (i : Int) : Int :=
  if i ≥ Gas + Power + Totals ∨ i ≤ All then All else i

/-! ## Claim C4 -/

/-- Claim C4, counterexample: the claim says every `i` inside
`[1, Gas+Power+Totals] = [1, 7]` is returned unchanged, but
`NewDataRetrievalOption 7 = All = 0 ≠ 7` because the guard uses `>=`. -/
theorem newDataRetrievalOption_seven_counterexample :
    NewDataRetrievalOption 7 = All ∧ NewDataRetrievalOption 7 ≠ 7 := by
  constructor
  · decide
  · decide

/-- Claim C4 (amended): `NewDataRetrievalOption i` returns `All` exactly when
`i` lies outside `[1, Gas+Power+Totals - 1] = [1, 6]`, and returns `i` itself
for every `i` inside `[1, 6]`. -/
theorem newDataRetrievalOption_normalizes (i : Int) :
    (NewDataRetrievalOption i = All ↔ (i < 1 ∨ 6 < i)) ∧
    (1 ≤ i → i ≤ 6 → NewDataRetrievalOption i = i) := by
  unfold NewDataRetrievalOption All Gas Power Totals
  constructor
  · by_cases h : i ≥ 1 + 2 + 4 ∨ i ≤ 0
    · simp only [if_pos h]
      constructor
      · intro _
        omega
      · intro _
        trivial
    · simp only [if_neg h]
      constructor
      · intro hi
        omega
      · intro hi
        omega
  · intro h1 h6
    have h : ¬(i ≥ 1 + 2 + 4 ∨ i ≤ 0) := by omega
    simp only [if_neg h]

/-- Witness for claim C4's amended theorem at the concrete input `3`. -/
theorem newDataRetrievalOption_normalizes_witness :
    (1 ≤ (3 : Int)) ∧ NewDataRetrievalOption 3 = 3 :=
  ⟨by decide, (newDataRetrievalOption_normalizes 3).2 (by decide) (by decide)⟩

/-! ## Wall-clock instants (`time.Time` at second resolution) -/

/-- A wall-clock instant as carried by the stored `YYYY-MM-DD HH:MM:SS`
strings: Go's `time.Time` restricted to the second resolution the code ever
uses. -/
structure GoDateTime where
  year : Nat
  month : Nat
  day : Nat
  hour : Nat
  minute : Nat
  second : Nat
deriving DecidableEq, Inhabited

/-- Gregorian leap-year rule, as used by Go's `time` package for day-of-month
validation. -/
def isLeapYear (y : Nat) : Bool :=
  decide ((y % 4 = 0 ∧ y % 100 ≠ 0) ∨ y % 400 = 0)

/-- Days in a month, as used by Go's `time` package (`daysIn`). -/
def daysInMonth (y mo : Nat) : Nat :=
  if mo = 2 then (if isLeapYear y then 29 else 28)
  else if mo = 4 ∨ mo = 6 ∨ mo = 9 ∨ mo = 11 then 30
  else 31

/-- The range validation Go's `time.Parse` applies to values read with the
layout `2006-01-02 15:04:05` (month, day-of-month, hour, minute, second). -/
def goDateTimeValid (y mo d h mi s : Nat) : Bool :=
  decide (1 ≤ mo ∧ mo ≤ 12 ∧ 1 ≤ d ∧ d ≤ daysInMonth y mo ∧ h ≤ 23 ∧ mi ≤ 59 ∧ s ≤ 59)

/-- A calendar date that Go's `Format("2006-01-02")` renders with four year
digits and that parses back; the hypothesis used for "today". -/
def validDate (y mo d : Nat) : Bool :=
  decide (y ≤ 9999 ∧ 1 ≤ mo ∧ mo ≤ 12 ∧ 1 ≤ d ∧ d ≤ daysInMonth y mo)

/-- Decimal digit character. -/
def digitChar (n : Nat) : Char := Char.ofNat (48 + n)

/-- Numeric value of a digit character. -/
def digitVal (c : Char) : Nat := c.toNat - 48

/-- Two-digit zero-padded rendering, Go's `01`/`02`/`15`/`04`/`05` layout
elements for in-range values. -/
def pad2 (n : Nat) : List Char := [digitChar (n / 10), digitChar (n % 10)]

/-- Four-digit zero-padded rendering, Go's `2006` layout element for years
`0`-`9999`. -/
def pad4 (n : Nat) : List Char :=
  [digitChar (n / 1000), digitChar (n / 100 % 10), digitChar (n / 10 % 10), digitChar (n % 10)]

/-- Go's `Format("2006-01-02")` on a valid date. -/
def formatDateChars (y mo d : Nat) : List Char :=
  pad4 y ++ '-' :: pad2 mo ++ '-' :: pad2 d

/-- Parse two digit characters (a fixed-width numeric layout element). -/
def parse2 (a b : Char) : Option Nat :=
  if a.isDigit = true ∧ b.isDigit = true then some (10 * digitVal a + digitVal b) else none

/-- Parse four digit characters (the `2006` layout element). -/
def parse4 (a b c d : Char) : Option Nat :=
  if a.isDigit = true ∧ b.isDigit = true ∧ c.isDigit = true ∧ d.isDigit = true then
    some (1000 * digitVal a + 100 * digitVal b + 10 * digitVal c + digitVal d)
  else none

/-- Embedding of Go's `time.ParseInLocation("2006-01-02 15:04:05", s, loc)`:
the input must be exactly `YYYY-MM-DD HH:MM:SS` with all values in range;
`none` is the error case (the code only ever compares the resulting instants
inside one location, so the location itself carries no information here). -/
def parseDateTimeChars (cs : List Char) : Option GoDateTime :=
  match cs with
  | [y1, y2, y3, y4, e1, m1, m2, e2, d1, d2, e3, h1, h2, e4, n1, n2, e5, s1, s2] =>
    if e1 = '-' ∧ e2 = '-' ∧ e3 = ' ' ∧ e4 = ':' ∧ e5 = ':' then
      match parse4 y1 y2 y3 y4, parse2 m1 m2, parse2 d1 d2,
          parse2 h1 h2, parse2 n1 n2, parse2 s1 s2 with
      | some y, some mo, some d, some h, some mi, some s =>
        if goDateTimeValid y mo d h mi s then some ⟨y, mo, d, h, mi, s⟩ else none
      | _, _, _, _, _, _ => none
    else none
  | _ => none

/-! ## The `dateTimeRegex` submatch (`(\d{4}-\d{2}-\d{2})? ?(\d{2}:\d{2}:\d{2})?`) -/

/-- Match the `\d{4}-\d{2}-\d{2}` alternative of the regex's first group at
the current position; returns the captured text and the rest. -/
def matchDate (cs : List Char) : Option (List Char × List Char) :=
  match cs with
  | c1 :: c2 :: c3 :: c4 :: c5 :: c6 :: c7 :: c8 :: c9 :: c10 :: rest =>
    if c1.isDigit = true ∧ c2.isDigit = true ∧ c3.isDigit = true ∧ c4.isDigit = true ∧
        c5 = '-' ∧ c6.isDigit = true ∧ c7.isDigit = true ∧ c8 = '-' ∧
        c9.isDigit = true ∧ c10.isDigit = true then
      some ([c1, c2, c3, c4, c5, c6, c7, c8, c9, c10], rest)
    else none
  | _ => none

/-- Match the `\d{2}:\d{2}:\d{2}` alternative of the regex's second group at
the current position; returns the captured text and the rest. -/
def matchTime (cs : List Char) : Option (List Char × List Char) :=
  match cs with
  | c1 :: c2 :: c3 :: c4 :: c5 :: c6 :: c7 :: c8 :: rest =>
    if c1.isDigit = true ∧ c2.isDigit = true ∧ c3 = ':' ∧ c4.isDigit = true ∧
        c5.isDigit = true ∧ c6 = ':' ∧ c7.isDigit = true ∧ c8.isDigit = true then
      some ([c1, c2, c3, c4, c5, c6, c7, c8], rest)
    else none
  | _ => none

/-- Embedding of `dateTimeRegex.FindStringSubmatch`: since every part of the
pattern is optional, the leftmost-first match always sits at position 0, each
group greedily preferring to participate, and the optional space is consumed
greedily after a date capture.  Result: `(match[0], match[1]?, match[2]?)`,
where a group that did not participate is `none` (the Go code only compares
those captures against `""`, and a participating group is never empty). -/
def findSubmatchDT (cs : List Char) : List Char × Option (List Char) × Option (List Char) :=
  match matchDate cs with
  | some (d, rest) =>
    match rest with
    | ' ' :: rest2 =>
      match matchTime rest2 with
      | some (t, _) => (d ++ ' ' :: t, some d, some t)
      | none => (d ++ [' '], some d, none)
    | _ =>
      match matchTime rest with
      | some (t, _) => (d ++ t, some d, some t)
      | none => (d, some d, none)
  | none =>
    match cs with
    | ' ' :: rest2 =>
      match matchTime rest2 with
      | some (t, _) => (' ' :: t, none, some t)
      | none => ([' '], none, none)
    | _ =>
      match matchTime cs with
      | some (t, _) => (t, none, some t)
      | none => ([], none, none)

/-- Embedding of `StringToTime` (storage source file lines 489-508).
`time.Now()` is modelled by the three "today" parameters, and the location
argument is dropped (see `parseDateTimeChars`). -/
def StringToTime (str : String) (todayYear todayMonth todayDay : Nat)
    (defaultTime : String) : Option GoDateTime :=
  match findSubmatchDT str.toList with
  | (m0, some _, some _) => parseDateTimeChars m0
  | (_, some d1, none) => parseDateTimeChars (d1 ++ ' ' :: defaultTime.toList)
  | (_, none, some t) =>
    parseDateTimeChars (formatDateChars todayYear todayMonth todayDay ++ ' ' :: t)
  | (_, none, none) =>
    parseDateTimeChars (formatDateChars todayYear todayMonth todayDay ++ ' ' :: defaultTime.toList)

/-! ## Format/parse round trip -/

theorem daysInMonth_le (y mo : Nat) : daysInMonth y mo ≤ 31 := by
  unfold daysInMonth
  split
  · split <;> omega
  · split <;> omega

theorem isDigit_digitChar (n : Nat) (h : n < 10) : (digitChar n).isDigit = true := by
  interval_cases n <;> decide

theorem digitVal_digitChar (n : Nat) (h : n < 10) : digitVal (digitChar n) = n := by
  interval_cases n <;> decide

theorem parse2_pad2 (n : Nat) (h : n ≤ 99) : parse2 (pad2 n).head! (pad2 n).tail.head! = some n := by
  have h1 : n / 10 < 10 := by omega
  have h2 : n % 10 < 10 := by omega
  simp only [pad2, List.head!, List.tail]
  unfold parse2
  rw [if_pos ⟨isDigit_digitChar _ h1, isDigit_digitChar _ h2⟩,
    digitVal_digitChar _ h1, digitVal_digitChar _ h2]
  congr 1
  omega

theorem parse4_pad4 (n : Nat) (h : n ≤ 9999) :
    parse4 (digitChar (n / 1000)) (digitChar (n / 100 % 10)) (digitChar (n / 10 % 10))
      (digitChar (n % 10)) = some n := by
  have h1 : n / 1000 < 10 := by omega
  have h2 : n / 100 % 10 < 10 := by omega
  have h3 : n / 10 % 10 < 10 := by omega
  have h4 : n % 10 < 10 := by omega
  unfold parse4
  rw [if_pos ⟨isDigit_digitChar _ h1, isDigit_digitChar _ h2, isDigit_digitChar _ h3,
    isDigit_digitChar _ h4⟩, digitVal_digitChar _ h1, digitVal_digitChar _ h2,
    digitVal_digitChar _ h3, digitVal_digitChar _ h4]
  congr 1
  omega

theorem parse2_digits (n : Nat) (h : n ≤ 99) :
    parse2 (digitChar (n / 10)) (digitChar (n % 10)) = some n := by
  have := parse2_pad2 n h
  simpa [pad2, List.head!, List.tail] using this

/-- Parsing a formatted valid date-time recovers it: the round trip behind
Go's `time.ParseInLocation(f, ..., loc)` applied to strings the code builds
out of `Format("2006-01-02")` and in-range time-of-day text. -/
theorem parseDateTimeChars_format (y mo d h mi s : Nat) (hy : y ≤ 9999)
    (hv : goDateTimeValid y mo d h mi s = true) :
    parseDateTimeChars
      (formatDateChars y mo d ++ ' ' :: (pad2 h ++ ':' :: pad2 mi ++ ':' :: pad2 s)) =
      some ⟨y, mo, d, h, mi, s⟩ := by
  have hvp := of_decide_eq_true hv
  obtain ⟨hmo1, hmo2, hd1, hd2, hh, hmi, hs⟩ := hvp
  have hdm := daysInMonth_le y mo
  simp only [formatDateChars, pad4, pad2, List.cons_append, List.nil_append]
  unfold parseDateTimeChars
  dsimp only
  rw [if_pos (by exact ⟨rfl, rfl, rfl, rfl, rfl⟩)]
  rw [parse4_pad4 y hy, parse2_digits mo (by omega), parse2_digits d (by omega),
    parse2_digits h (by omega), parse2_digits mi (by omega), parse2_digits s (by omega)]
  simp only [hv, if_true]

/-! ## Claim C6 -/

/-- Claim C6: `StringToTime` parses `"2020-02-03 13:22:33"` to exactly that
instant; parses `"2020-02-03"` with fallback time `"01:02:03"` to
`2020-02-03 01:02:03`; parses `"13:22:33"` to today's date at `13:22:33`;
and parses the unparsable `"lsbhewr"` with fallback `"01:02:03"` to today's
date at `01:02:03`. -/
theorem stringToTime_scenarios (y mo d : Nat) (hv : validDate y mo d = true) :
    StringToTime "2020-02-03 13:22:33" y mo d "01:02:03" = some ⟨2020, 2, 3, 13, 22, 33⟩ ∧
    StringToTime "2020-02-03" y mo d "01:02:03" = some ⟨2020, 2, 3, 1, 2, 3⟩ ∧
    StringToTime "13:22:33" y mo d "01:02:03" = some ⟨y, mo, d, 13, 22, 33⟩ ∧
    StringToTime "lsbhewr" y mo d "01:02:03" = some ⟨y, mo, d, 1, 2, 3⟩ := by
  have hvp := of_decide_eq_true hv
  obtain ⟨hy, hmo1, hmo2, hd1, hd2⟩ := hvp
  have hdm := daysInMonth_le y mo
  refine ⟨?_, ?_, ?_, ?_⟩
  · have e1 : findSubmatchDT "2020-02-03 13:22:33".toList =
        ("2020-02-03 13:22:33".toList, some "2020-02-03".toList, some "13:22:33".toList) := by
      decide
    unfold StringToTime
    rw [e1]
    exact (show parseDateTimeChars "2020-02-03 13:22:33".toList =
      some ⟨2020, 2, 3, 13, 22, 33⟩ by decide)
  · have e2 : findSubmatchDT "2020-02-03".toList =
        ("2020-02-03".toList, some "2020-02-03".toList, none) := by decide
    unfold StringToTime
    rw [e2]
    exact (show parseDateTimeChars ("2020-02-03".toList ++ ' ' :: "01:02:03".toList) =
      some ⟨2020, 2, 3, 1, 2, 3⟩ by decide)
  · have e3 : findSubmatchDT "13:22:33".toList =
        ("13:22:33".toList, none, some "13:22:33".toList) := by decide
    have c3 : "13:22:33".toList = pad2 13 ++ ':' :: pad2 22 ++ ':' :: pad2 33 := by decide
    unfold StringToTime
    rw [e3]
    rw [c3]
    exact parseDateTimeChars_format y mo d 13 22 33 hy
      (by simp only [goDateTimeValid, decide_eq_true_eq]; omega)
  · have e4 : findSubmatchDT "lsbhewr".toList = ([], none, none) := by decide
    have c4 : "01:02:03".toList = pad2 1 ++ ':' :: pad2 2 ++ ':' :: pad2 3 := by decide
    unfold StringToTime
    rw [e4]
    rw [c4]
    exact parseDateTimeChars_format y mo d 1 2 3 hy
      (by simp only [goDateTimeValid, decide_eq_true_eq]; omega)

/-- Witness for claim C6 with today = 2026-10-11. -/
theorem stringToTime_scenarios_witness :
    validDate 2026 10 11 = true ∧
    StringToTime "13:22:33" 2026 10 11 "01:02:03" = some ⟨2026, 10, 11, 13, 22, 33⟩ :=
  ⟨by decide, (stringToTime_scenarios 2026 10 11 (by decide)).2.2.1⟩

/-! ## Instants as integer nanoseconds (Go `time.Time` arithmetic) -/

/-- Days from January 1 of year 1 to January 1 of year `y` in the proleptic
Gregorian calendar (what Go's `time` package computes dates with). -/
def daysBeforeYear (y : Nat) : Nat :=
  (y - 1) * 365 + (y - 1) / 4 - (y - 1) / 100 + (y - 1) / 400

/-- Days from the start of the year to the start of month `mo`. -/
def daysBeforeMonth (y mo : Nat) : Nat :=
  ((List.range (mo - 1)).map (fun k => daysInMonth y (k + 1))).sum

/-- Seconds since the zero instant (`time.Time{}`, January 1 of year 1,
00:00:00). -/
def dtToSeconds (dt : GoDateTime) : Nat :=
  ((daysBeforeYear dt.year + daysBeforeMonth dt.year dt.month + (dt.day - 1)) * 24
    + dt.hour) * 3600 + dt.minute * 60 + dt.second

/-- The instant as integer nanoseconds since the zero instant; `0` is exactly
Go's zero `time.Time`, and subtracting two encodings is Go's
`time.Time.Sub` (a `time.Duration` in nanoseconds). -/
def dtToNanos (dt : GoDateTime) : Int :=
  (dtToSeconds dt : Int) * 1000000000

/-- Go's `time.Second` (a `time.Duration` of 1e9 nanoseconds). -/
def timeSecond : Int := 1000000000

/-! ## The bucketizer (storage source file: `getTimestamp`, `getRangeIndexes`,
`GetAveragedRange`) -/

/-- Embedding of `(*ReadoutData).getTimestamp` (lines 174-184): if the cached
`timestamp` is the zero instant, parse the `Timestamp` string (a parse
failure is logged and leaves the zero instant); mutation of the cache is
result-equivalent to this pure function. -/
def getTimestamp (r : ReadoutData) : Int :=
  if r.timestamp = 0 then
    match parseDateTimeChars r.Timestamp.toList with
    | some dt => dtToNanos dt
    | none => 0
  else r.timestamp

/-- Embedding of `rangeKeys` (lines 334-336); `end` is a Lean keyword, so the
second field is `endIdx`. -/
structure rangeKeys where
  start : Nat
  endIdx : Nat
deriving DecidableEq, Inhabited

/-- The loop of `getRangeIndexes` (lines 343-368), one recursive step per
executed loop body.  `fuel` only bounds the number of body executions so that
the recursion is structural: the loop variable `i` strictly increases on
every execution and stays below `readouts.length`, so `readouts.length`
bodies never exhaust the fuel (see `getRangeIndexes`). -/
def rangeIndexesAux (rd : List ReadoutData) (interval : Int) :
    Nat → Nat → Nat → List rangeKeys
  | 0, _, _ => []
  | fuel + 1, startKey, i =>
    if i < rd.length then
      if i = startKey then rangeIndexesAux rd interval fuel startKey (i + 1)
      else
        let sr := rd.getD startKey default
        let cr := rd.getD i default
        let sTime := getTimestamp sr
        if sTime = 0 then rangeIndexesAux rd interval fuel (startKey + 1) (i + 1)
        else
          let cTime := getTimestamp cr
          if cTime - sTime < interval ∧ i < rd.length - 1 then
            rangeIndexesAux rd interval fuel startKey (i + 1)
          else
            let i2 := if i = rd.length - 1 then i + 1 else i
            ⟨startKey, i2 - 1⟩ :: rangeIndexesAux rd interval fuel i2 (i2 + 1)
    else []

/-- Embedding of `getRangeIndexes` (lines 338-371). -/
def getRangeIndexes (readouts : List ReadoutData) (interval : Int) : List rangeKeys :=
  rangeIndexesAux readouts interval readouts.length 0 0

/-- Go's `math.Round`: round to the nearest integer, halves away from zero. -/
def goRound (x : ℚ) : ℚ :=
  if x < 0 then -(Int.floor (-x + 1 / 2) : ℚ) else (Int.floor (x + 1 / 2) : ℚ)

/-- The body of the summing loop in `GetAveragedRange` (lines 308-316). -/
def addFields (acc c : ReadoutData) : ReadoutData :=
  { acc with
    PowerReceived := acc.PowerReceived + c.PowerReceived
    PowerDelivered := acc.PowerDelivered + c.PowerDelivered
    GasReceived := acc.GasReceived + c.GasReceived
    TotalPowerDeliveredLowTarif := acc.TotalPowerDeliveredLowTarif + c.TotalPowerDeliveredLowTarif
    TotalPowerDeliveredPeakTarif := acc.TotalPowerDeliveredPeakTarif + c.TotalPowerDeliveredPeakTarif
    TotalPowerReceivedLowTarif := acc.TotalPowerReceivedLowTarif + c.TotalPowerReceivedLowTarif
    TotalPowerReceivedPeakTarif := acc.TotalPowerReceivedPeakTarif + c.TotalPowerReceivedPeakTarif }

/-- Embedding of the averaging applied to one bucket's records `currRange`
in `GetAveragedRange` (lines 304-325): start from a record carrying the first
record's `Timestamp` and `Tarif` (all other fields zero, as a Go struct
literal), sum every numeric field, then set each numeric field to
`math.Round(sum*1000/divisor)/1000` with `divisor = len(currRange)`. -/
def averageBucket (currRange : List ReadoutData) : ReadoutData :=
  let first := currRange.headD default
  let summed := currRange.foldl addFields
    { Timestamp := first.Timestamp, Tarif := first.Tarif }
  let divisor : ℚ := currRange.length
  { summed with
    PowerReceived := goRound (summed.PowerReceived * 1000 / divisor) / 1000
    PowerDelivered := goRound (summed.PowerDelivered * 1000 / divisor) / 1000
    GasReceived := goRound (summed.GasReceived * 1000 / divisor) / 1000
    TotalPowerDeliveredLowTarif :=
      goRound (summed.TotalPowerDeliveredLowTarif * 1000 / divisor) / 1000
    TotalPowerDeliveredPeakTarif :=
      goRound (summed.TotalPowerDeliveredPeakTarif * 1000 / divisor) / 1000
    TotalPowerReceivedLowTarif :=
      goRound (summed.TotalPowerReceivedLowTarif * 1000 / divisor) / 1000
    TotalPowerReceivedPeakTarif :=
      goRound (summed.TotalPowerReceivedPeakTarif * 1000 / divisor) / 1000 }

/-- Go's slice `xs[a:b]` on a list. -/
def goSlice (xs : List ReadoutData) (a b : Nat) : List ReadoutData :=
  (xs.drop a).take (b - a)

/-- The body of the bucket loop in `GetAveragedRange` (lines 297-328): a key
with `start == end` emits `completeRange[start]` unchanged, any other key
averages the slice `completeRange[start:end]`. -/
def processBucket (completeRange : List ReadoutData) (k : rangeKeys) : ReadoutData :=
  if k.start = k.endIdx then completeRange.getD k.start default
  else averageBucket (goSlice completeRange k.start k.endIdx)

/-- The pure aggregation core of `GetAveragedRange` (lines 294-328): compute
the index ranges, then emit one record per range. -/
def bucketizeRange (completeRange : List ReadoutData) (interval : Int) : List ReadoutData :=
  (getRangeIndexes completeRange interval).map (processBucket completeRange)

/-! ## Claims C1 and C5: coverage of the buckets -/

/-- The input indexes a key consumes under the bucket loop of
`GetAveragedRange`: `[start]` for a `start == end` key (it emits
`completeRange[start]`), otherwise the indexes of the Go slice
`completeRange[start:end]`, i.e. `start, ..., end-1`. -/
def coveredIndexes (k : rangeKeys) : List Nat :=
  if k.start = k.endIdx then [k.start] else List.range' k.start (k.endIdx - k.start)

/-- A readout whose stored timestamp string is 2020-01-01 00:00:00. -/
def readoutAt0 : ReadoutData := { Timestamp := "2020-01-01 00:00:00", PowerReceived := 1 }

/-- A readout whose stored timestamp string is 2020-01-01 00:00:01. -/
def readoutAt1 : ReadoutData := { Timestamp := "2020-01-01 00:00:01", PowerReceived := 2 }

/-- Claim C1 evaluated at its failing input: two records one second apart,
ascending, with a two-second interval.  `getRangeIndexes` yields the single
key `{0, 1}`, the slicing in `GetAveragedRange` makes that bucket consume
only index `0`, and the aggregated output is the one-element average of the
first record — index `1` is covered by no bucket, so the buckets do not
cover every input index exactly once. -/
theorem bucketizer_drops_last_index :
    getRangeIndexes [readoutAt0, readoutAt1] (2 * timeSecond) = [⟨0, 1⟩] ∧
    (getRangeIndexes [readoutAt0, readoutAt1] (2 * timeSecond)).flatMap coveredIndexes = [0] ∧
    bucketizeRange [readoutAt0, readoutAt1] (2 * timeSecond) = [averageBucket [readoutAt0]] := by
  have hk : getRangeIndexes [readoutAt0, readoutAt1] (2 * timeSecond) = [⟨0, 1⟩] := by decide
  refine ⟨hk, by decide, ?_⟩
  simp only [bucketizeRange, hk, List.map_cons, List.map_nil, processBucket, goSlice]
  simp [readoutAt0, readoutAt1]

/-- Claim C5 evaluated at its failing input: a single-record input produces
no index range at all (`i == startKey` short-circuits the only loop
iteration), so aggregation returns an empty output instead of the one
unmodified record the claim requires. -/
theorem bucketizer_single_record_empty :
    getRangeIndexes [readoutAt0] (5 * timeSecond) = [] ∧
    bucketizeRange [readoutAt0] (5 * timeSecond) = [] := by
  refine ⟨by decide, by decide⟩

/-! ## Claim C2: averaging of a closed bucket -/

/-- Round to three decimal places exactly as the claim words it: multiply by
1000, round to the nearest integer (halves away from zero), divide by 1000. -/
def roundTo3 (x : ℚ) : ℚ := goRound (x * 1000) / 1000

/-- The claim's description of an averaged bucket, written from the spec's
words for comparison with `averageBucket`: each numeric field is the field's
sum over the bucket's records divided by the record count, rounded at the
third decimal; `Timestamp` and `Tarif` are taken verbatim from the bucket's
first record. -/
def averageBucketSpec (rs : List ReadoutData) : ReadoutData :=
  { Timestamp := (rs.headD default).Timestamp
    Tarif := (rs.headD default).Tarif
    PowerReceived := roundTo3 ((rs.map (fun r => r.PowerReceived)).sum / rs.length)
    PowerDelivered := roundTo3 ((rs.map (fun r => r.PowerDelivered)).sum / rs.length)
    GasReceived := roundTo3 ((rs.map (fun r => r.GasReceived)).sum / rs.length)
    TotalPowerDeliveredLowTarif :=
      roundTo3 ((rs.map (fun r => r.TotalPowerDeliveredLowTarif)).sum / rs.length)
    TotalPowerDeliveredPeakTarif :=
      roundTo3 ((rs.map (fun r => r.TotalPowerDeliveredPeakTarif)).sum / rs.length)
    TotalPowerReceivedLowTarif :=
      roundTo3 ((rs.map (fun r => r.TotalPowerReceivedLowTarif)).sum / rs.length)
    TotalPowerReceivedPeakTarif :=
      roundTo3 ((rs.map (fun r => r.TotalPowerReceivedPeakTarif)).sum / rs.length) }

theorem foldl_addFields (rs : List ReadoutData) (acc : ReadoutData) :
    rs.foldl addFields acc =
      { acc with
        PowerReceived := acc.PowerReceived + (rs.map (fun r => r.PowerReceived)).sum
        PowerDelivered := acc.PowerDelivered + (rs.map (fun r => r.PowerDelivered)).sum
        GasReceived := acc.GasReceived + (rs.map (fun r => r.GasReceived)).sum
        TotalPowerDeliveredLowTarif :=
          acc.TotalPowerDeliveredLowTarif + (rs.map (fun r => r.TotalPowerDeliveredLowTarif)).sum
        TotalPowerDeliveredPeakTarif :=
          acc.TotalPowerDeliveredPeakTarif + (rs.map (fun r => r.TotalPowerDeliveredPeakTarif)).sum
        TotalPowerReceivedLowTarif :=
          acc.TotalPowerReceivedLowTarif + (rs.map (fun r => r.TotalPowerReceivedLowTarif)).sum
        TotalPowerReceivedPeakTarif :=
          acc.TotalPowerReceivedPeakTarif +
            (rs.map (fun r => r.TotalPowerReceivedPeakTarif)).sum } := by
  induction rs generalizing acc with
  | nil => simp
  | cons c rs ih =>
    simp only [List.foldl_cons, ih, List.map_cons, List.sum_cons, addFields]
    ext <;> simp [add_assoc]

/-- Claim C2: for a closed bucket with more than one record, `averageBucket`
produces exactly the record described by the claim — each numeric field is
`round(sum/n, 3 decimals)` with halves away from zero, and `Timestamp` and
`Tarif` come verbatim from the bucket's first record. -/
theorem averageBucket_eq_spec (rs : List ReadoutData) (_h : 1 < rs.length) :
    averageBucket rs = averageBucketSpec rs := by
  simp only [averageBucket, averageBucketSpec, roundTo3, foldl_addFields]
  ext <;> simp [div_mul_eq_mul_div]

/-- Witness for claim C2 on a concrete two-record bucket. -/
theorem averageBucket_eq_spec_witness :
    1 < [readoutAt0, readoutAt1].length ∧
    averageBucket [readoutAt0, readoutAt1] = averageBucketSpec [readoutAt0, readoutAt1] :=
  ⟨by decide, averageBucket_eq_spec [readoutAt0, readoutAt1] (by decide)⟩

/-! ## Claim C7: corrupt bucket-start records are skipped -/

/-- A loop iteration whose index equals the current bucket start only
advances the scan cursor (`if i == startKey { continue }`). -/
theorem rangeIndexesAux_self_step (rd : List ReadoutData) (interval : Int) (fuel k : Nat) :
    rangeIndexesAux rd interval (fuel + 1) k k =
      rangeIndexesAux rd interval fuel k (k + 1) := by
  by_cases hk : k < rd.length
  · simp only [rangeIndexesAux]
    rw [if_pos hk]
    simp
  · have hk1 : ¬(k + 1 < rd.length) := by omega
    cases fuel with
    | zero =>
      simp only [rangeIndexesAux]
      rw [if_neg hk]
    | succ fuel =>
      simp only [rangeIndexesAux]
      rw [if_neg hk, if_neg hk1]

/-- A loop iteration whose bucket-start record has the zero instant only
advances `bucketStart` (and, via the loop increment, the cursor); no key is
emitted. -/
theorem rangeIndexesAux_skip_step (rd : List ReadoutData) (interval : Int)
    (fuel startKey i : Nat) (hi : i < rd.length) (hne : i ≠ startKey)
    (hz : getTimestamp (rd.getD startKey default) = 0) :
    rangeIndexesAux rd interval (fuel + 1) startKey i =
      rangeIndexesAux rd interval fuel (startKey + 1) (i + 1) := by
  simp only [rangeIndexesAux]
  rw [if_pos hi, if_neg hne, if_pos hz]

/-- Running the scan over `c :: rest` from a state one past `c` produces
exactly the keys of the scan over `rest`, shifted by one. -/
theorem rangeIndexesAux_shift (c : ReadoutData) (rest : List ReadoutData) (interval : Int) :
    ∀ (fuel s j : Nat), s ≤ j →
      rangeIndexesAux (c :: rest) interval fuel (s + 1) (j + 1) =
        (rangeIndexesAux rest interval fuel s j).map
          (fun k => ⟨k.start + 1, k.endIdx + 1⟩) := by
  intro fuel
  induction fuel with
  | zero =>
    intro s j hsj
    simp [rangeIndexesAux]
  | succ fuel ih =>
    intro s j hsj
    simp only [rangeIndexesAux, List.length_cons, Nat.add_sub_cancel, List.getD_cons_succ,
      Nat.add_lt_add_iff_right, Nat.add_right_cancel_iff]
    by_cases hj : j < rest.length
    · rw [if_pos hj, if_pos hj]
      by_cases hjs : j = s
      · rw [if_pos hjs, if_pos hjs]
        subst hjs
        exact ih j (j + 1) (by omega)
      · rw [if_neg hjs, if_neg hjs]
        by_cases hz : getTimestamp (rest.getD s default) = 0
        · rw [if_pos hz, if_pos hz]
          exact ih (s + 1) (j + 1) (by omega)
        · rw [if_neg hz, if_neg hz]
          have hiff : (getTimestamp (rest.getD j default) - getTimestamp (rest.getD s default)
                < interval ∧ j + 1 < rest.length) ↔
              (getTimestamp (rest.getD j default) - getTimestamp (rest.getD s default)
                < interval ∧ j < rest.length - 1) :=
            and_congr_right fun _ => by omega
          by_cases hcont : getTimestamp (rest.getD j default) -
              getTimestamp (rest.getD s default) < interval ∧ j < rest.length - 1
          · rw [if_pos (hiff.mpr hcont), if_pos hcont]
            exact ih s (j + 1) (by omega)
          · rw [if_neg (fun hl => hcont (hiff.mp hl)), if_neg hcont]
            by_cases hlast : j = rest.length - 1
            · have hl1 : j + 1 = rest.length := by omega
              rw [if_pos hl1, if_pos hlast, List.map_cons]
              congr 1
              exact ih (j + 1) (j + 1 + 1) (by omega)
            · have hl1 : ¬(j + 1 = rest.length) := by omega
              rw [if_neg hl1, if_neg hlast, List.map_cons]
              have hj1 : 1 ≤ j := by omega
              congr 1
              · simp only [Nat.add_sub_cancel]
                congr 1
                omega
              · exact ih j (j + 1) (by omega)
    · rw [if_neg hj, if_neg hj]
      rfl

/-- Claim C7: a record whose stored timestamp yields the zero instant is
skipped as a bucket-start candidate — when the current bucket start has the
zero instant, the loop body emits no key, advances `bucketStart` past it and
continues the scan (first conjunct); consequently a corrupt leading record
leaves the bucketization of the remaining records intact, merely shifting
every index range by one (second conjunct). -/
theorem corruptRow_skipped :
    (∀ (rd : List ReadoutData) (interval : Int) (fuel startKey i : Nat),
        i < rd.length → i ≠ startKey →
        getTimestamp (rd.getD startKey default) = 0 →
        rangeIndexesAux rd interval (fuel + 1) startKey i =
          rangeIndexesAux rd interval fuel (startKey + 1) (i + 1)) ∧
    (∀ (c : ReadoutData) (rest : List ReadoutData) (interval : Int),
        getTimestamp c = 0 →
        getRangeIndexes (c :: rest) interval =
          (getRangeIndexes rest interval).map (fun k => ⟨k.start + 1, k.endIdx + 1⟩)) := by
  constructor
  · intro rd interval fuel startKey i hi hne hz
    exact rangeIndexesAux_skip_step rd interval fuel startKey i hi hne hz
  · intro c rest interval hc
    unfold getRangeIndexes
    cases rest with
    | nil =>
      simp [rangeIndexesAux]
    | cons r rest2 =>
      simp only [List.length_cons]
      rw [rangeIndexesAux_self_step (c :: r :: rest2) interval (rest2.length + 1) 0]
      rw [rangeIndexesAux_skip_step (c :: r :: rest2) interval rest2.length 0 1
        (by simp) (by omega) (by simpa using hc)]
      rw [rangeIndexesAux_self_step (r :: rest2) interval rest2.length 0]
      exact rangeIndexesAux_shift c (r :: rest2) interval rest2.length 0 1 (by omega)

/-- Witness for claim C7: a corrupt record (unparsable timestamp string) in
front of two good records shifts the two-record bucketization by one. -/
theorem corruptRow_skipped_witness :
    getTimestamp { Timestamp := "garbage" } = 0 ∧
    getRangeIndexes [{ Timestamp := "garbage" }, readoutAt0, readoutAt1] (2 * timeSecond) =
      (getRangeIndexes [readoutAt0, readoutAt1] (2 * timeSecond)).map
        (fun k => ⟨k.start + 1, k.endIdx + 1⟩) :=
  ⟨by decide, corruptRow_skipped.2 { Timestamp := "garbage" } [readoutAt0, readoutAt1]
    (2 * timeSecond) (by decide)⟩

/-! ## The SQL backend model, `GetRange` and `GetAveragedRange` -/

/-- Go's `Format("2006-01-02 15:04:05")` on an instant (the shape of every
stored timestamp string). -/
def formatDateTime (dt : GoDateTime) : String :=
  String.mk (formatDateChars dt.year dt.month dt.day ++ ' ' ::
    (pad2 dt.hour ++ ':' :: pad2 dt.minute ++ ':' :: pad2 dt.second))

/-- A stored row of the `readouts` table, with the columns `GetRange` scans.
The MySQL backend is external to the repository: a row is modelled as the
`DATETIME` timestamp column (second resolution) plus the numeric columns. -/
structure DBRow where
  ts : GoDateTime
  tarif : Int := 0
  power_received : ℚ := 0
  power_deliverd : ℚ := 0
  gas_received : ℚ := 0
  total_power_received_low : ℚ := 0
  total_power_received_peak : ℚ := 0
  total_power_delivered_low : ℚ := 0
  total_power_delivered_peak : ℚ := 0
deriving DecidableEq, Inhabited

/-- The modelled backend: the stored rows, plus the error (if any) that
`db.Query` reports — `none` means the query succeeds. -/
structure DB where
  rows : List DBRow
  queryError : Option String
deriving DecidableEq, Inhabited

/-- Embedding of `fieldsFromDataRetrievalOption` (lines 186-202). -/
def fieldsFromDataRetrievalOption (retrieve : Int) : String :=
  if retrieve = Gas then "MIN(timestamp), MAX(gas_received)"
  else if retrieve = Power then "timestamp, power_received, power_deliverd"
  else if retrieve = Totals then
    "timestamp, total_power_received_low, total_power_received_peak, total_power_delivered_low, total_power_delivered_peak"
  else if retrieve = Gas + Power then "timestamp, gas_received, power_received, power_deliverd"
  else if retrieve = Gas + Totals then
    "timestamp, gas_received, total_power_received_low, total_power_received_peak, total_power_delivered_low, total_power_delivered_peak"
  else if retrieve = Power + Totals then
    "timestamp, power_received, power_deliverd, total_power_received_low, total_power_received_peak, total_power_delivered_low, total_power_delivered_peak"
  else "*"

/-- Embedding of `groupingFromDataRetrievalOption` (lines 204-220): only the
Gas-only projection adds a grouping clause. -/
def groupingFromDataRetrievalOption (retrieve : Int) : String :=
  if retrieve = Gas then " GROUP BY gas_received" else ""

/-- The query string built in `GetRange` (line 231). -/
def buildQuery (retrieve : Int) : String :=
  "SELECT " ++ fieldsFromDataRetrievalOption retrieve ++
    " FROM readouts WHERE timestamp >= ? AND timestamp <= ?" ++
    groupingFromDataRetrievalOption retrieve

/-- Modelled SQL semantics of the `WHERE` clause: comparing the `DATETIME`
column against the formatted `start`/`end` arguments is the chronological
comparison at second resolution, inclusive on both bounds. -/
def inRangeRows (rows : List DBRow) (start endT : GoDateTime) : List DBRow :=
  rows.filter (fun r => decide (dtToSeconds start ≤ dtToSeconds r.ts ∧
    dtToSeconds r.ts ≤ dtToSeconds endT))

/-- One result row as assembled from the `rows.Scan` switch in `GetRange`
(lines 245-279): only the selected columns are scanned into variables, every
other field keeps Go's zero value; the timestamp column is scanned as its
formatted string. -/
def shapeRow (retrieve : Int) (r : DBRow) : ReadoutData :=
  if retrieve = Power then
    { Timestamp := formatDateTime r.ts, PowerReceived := r.power_received,
      PowerDelivered := r.power_deliverd }
  else if retrieve = Totals then
    { Timestamp := formatDateTime r.ts,
      TotalPowerReceivedLowTarif := r.total_power_received_low,
      TotalPowerReceivedPeakTarif := r.total_power_received_peak,
      TotalPowerDeliveredLowTarif := r.total_power_delivered_low,
      TotalPowerDeliveredPeakTarif := r.total_power_delivered_peak }
  else if retrieve = Gas + Power then
    { Timestamp := formatDateTime r.ts, GasReceived := r.gas_received,
      PowerReceived := r.power_received, PowerDelivered := r.power_deliverd }
  else if retrieve = Gas + Totals then
    { Timestamp := formatDateTime r.ts, GasReceived := r.gas_received,
      TotalPowerReceivedLowTarif := r.total_power_received_low,
      TotalPowerReceivedPeakTarif := r.total_power_received_peak,
      TotalPowerDeliveredLowTarif := r.total_power_delivered_low,
      TotalPowerDeliveredPeakTarif := r.total_power_delivered_peak }
  else if retrieve = Power + Totals then
    { Timestamp := formatDateTime r.ts,
      PowerReceived := r.power_received, PowerDelivered := r.power_deliverd,
      TotalPowerReceivedLowTarif := r.total_power_received_low,
      TotalPowerReceivedPeakTarif := r.total_power_received_peak,
      TotalPowerDeliveredLowTarif := r.total_power_delivered_low,
      TotalPowerDeliveredPeakTarif := r.total_power_delivered_peak }
  else
    { Timestamp := formatDateTime r.ts, Tarif := r.tarif,
      PowerReceived := r.power_received, PowerDelivered := r.power_deliverd,
      GasReceived := r.gas_received,
      TotalPowerReceivedLowTarif := r.total_power_received_low,
      TotalPowerReceivedPeakTarif := r.total_power_received_peak,
      TotalPowerDeliveredLowTarif := r.total_power_delivered_low,
      TotalPowerDeliveredPeakTarif := r.total_power_delivered_peak }

/-- The distinct `gas_received` values of the given rows, in first-occurrence
order (the modelled `GROUP BY gas_received` grouping). -/
def gasDistinct (rows : List DBRow) : List ℚ :=
  rows.foldl (fun acc r => if r.gas_received ∈ acc then acc else acc ++ [r.gas_received]) []

/-- Modelled result of `SELECT MIN(timestamp), MAX(gas_received) ... GROUP BY
gas_received`: one row per distinct gas value, carrying the group's earliest
timestamp (all rows of a group share the one gas value, so the `MAX` is that
value); scanned into `(&ts, &gRec)` exactly as the Gas case of the switch. -/
def gasGroupRows (rows : List DBRow) : List ReadoutData :=
  (gasDistinct rows).map (fun g =>
    let group := rows.filter (fun r => decide (r.gas_received = g))
    let mn := group.foldl (fun a r => if dtToSeconds r.ts < dtToSeconds a then r.ts else a)
      (group.headD default).ts
    { Timestamp := formatDateTime mn, GasReceived := g })

/-- Embedding of `GetRange` (lines 223-284) over the modelled backend: a
failing query returns the empty slice made at the top together with the
error; otherwise every row matching the inclusive timestamp range is scanned
in order, shaped by the projection (`GROUP BY` applies only to Gas). -/
def GetRange (db : DB) (start endT : GoDateTime) (retrieve : Int) :
    List ReadoutData × Option String :=
  match db.queryError with
  | some e => ([], some e)
  | none =>
    if retrieve = Gas then (gasGroupRows (inRangeRows db.rows start endT), none)
    else ((inRangeRows db.rows start endT).map (shapeRow retrieve), none)

/-- Embedding of `GetAveragedRange` (lines 287-332): fetch the raw range,
return it unchanged (with its error) if the query failed or the interval is
one second, otherwise aggregate it. -/
def GetAveragedRange (db : DB) (start endT : GoDateTime) (interval : Int)
    (retrieve : Int) : List ReadoutData × Option String :=
  let res := GetRange db start endT retrieve
  if res.2.isSome = true ∨ interval = timeSecond then res
  else (bucketizeRange res.1 interval, none)

/-! ## Claim C3 -/

/-- Claim C3: with `interval` equal to one second (`time.Second`, the finest
native sampling resolution) `GetAveragedRange` returns exactly the sequence
and the error value of `GetRange` for the same bounds and projection. -/
theorem getAveragedRange_second_noop (db : DB) (start endT : GoDateTime) (retrieve : Int) :
    GetAveragedRange db start endT timeSecond retrieve = GetRange db start endT retrieve := by
  simp [GetAveragedRange]

/-! ## Claim C8 -/

/-- Claim C8: `GetRange` returns an empty sequence and a nil error when no
stored row lies in `[start, end]`; it returns the empty sequence together
with the backend's error exactly when the query fails; the issued query text
contains the inclusive range condition, and (for the ungrouped projections)
every stored row inside the inclusive bounds is present in the output. -/
theorem getRange_error_contract (db : DB) (start endT : GoDateTime) (retrieve : Int) :
    ((GetRange db start endT retrieve).2 ≠ none ↔ db.queryError ≠ none) ∧
    (db.queryError = none → inRangeRows db.rows start endT = [] →
      GetRange db start endT retrieve = ([], none)) ∧
    (∀ e, db.queryError = some e → GetRange db start endT retrieve = ([], some e)) ∧
    (∃ pre post : String,
      buildQuery retrieve = pre ++ "timestamp >= ? AND timestamp <= ?" ++ post) ∧
    (db.queryError = none → retrieve ≠ Gas → ∀ r ∈ db.rows,
      dtToSeconds start ≤ dtToSeconds r.ts → dtToSeconds r.ts ≤ dtToSeconds endT →
      shapeRow retrieve r ∈ (GetRange db start endT retrieve).1) := by
  refine ⟨?_, ?_, ?_, ?_, ?_⟩
  · cases hq : db.queryError with
    | none =>
      simp only [GetRange, hq]
      by_cases hg : retrieve = Gas <;> simp [hg]
    | some e => simp [GetRange, hq]
  · intro hq hfilter
    simp only [GetRange, hq]
    by_cases hg : retrieve = Gas <;> simp [hg, hfilter, gasGroupRows, gasDistinct]
  · intro e hq
    simp [GetRange, hq]
  · refine ⟨"SELECT " ++ fieldsFromDataRetrievalOption retrieve ++ " FROM readouts WHERE ",
      groupingFromDataRetrievalOption retrieve, ?_⟩
    have hW : (" FROM readouts WHERE timestamp >= ? AND timestamp <= ?" : String) =
        " FROM readouts WHERE " ++ "timestamp >= ? AND timestamp <= ?" := by decide
    unfold buildQuery
    rw [hW]
    simp [String.append_assoc]
  · intro hq hg r hr hle hge
    simp only [GetRange, hq]
    rw [if_neg hg]
    exact List.mem_map_of_mem (shapeRow retrieve)
      (List.mem_filter.mpr ⟨hr, by simp [hle, hge]⟩)

/-- A sample stored row for the claim C8 witness. -/
def witnessRow : DBRow := { ts := ⟨2020, 1, 1, 0, 0, 0⟩, gas_received := 7 }

/-- A sample healthy one-row backend for the claim C8 witness. -/
def witnessDB : DB := { rows := [witnessRow], queryError := none }

/-- Witness for claim C8: a one-row store queried successfully over the
degenerate range `[T, T]` containing the row returns that shaped row. -/
theorem getRange_error_contract_witness :
    witnessDB.queryError = none ∧
    shapeRow Power witnessRow ∈
      (GetRange witnessDB ⟨2020, 1, 1, 0, 0, 0⟩ ⟨2020, 1, 1, 0, 0, 0⟩ Power).1 :=
  ⟨rfl, (getRange_error_contract witnessDB ⟨2020, 1, 1, 0, 0, 0⟩ ⟨2020, 1, 1, 0, 0, 0⟩
      Power).2.2.2.2 rfl (by decide) witnessRow (by simp [witnessDB])
    (le_refl _) (le_refl _)⟩

/-! ## JSON serialization model (`ReadoutsToJSON`, data-retrieval-option.go) -/

/-- A JSON value as placed in the map `o` (a timestamp string or a numeric
field). -/
inductive JSONValue where
  | str : String → JSONValue
  | num : ℚ → JSONValue
deriving DecidableEq

/-- One element of the `output` slice in `ReadoutsToJSON`: either the
key-value map `o` (kept in insertion order — `json.Marshal` serializes its
key set, so the claims below only inspect the keys) or the whole
`ReadoutData` struct `v`. -/
inductive JSONEntry where
  | obj : List (String × JSONValue) → JSONEntry
  | record : ReadoutData → JSONEntry
deriving DecidableEq

/-- Embedding of `addGasToMap` (lines 173-175). -/
def addGasToMap (v : ReadoutData) : List (String × JSONValue) :=
  [("GasReceived", .num v.GasReceived)]

/-- Embedding of `addPowerToMap` (lines 177-180). -/
def addPowerToMap (v : ReadoutData) : List (String × JSONValue) :=
  [("PowerReceived", .num v.PowerReceived), ("PowerDelivered", .num v.PowerDelivered)]

/-- Embedding of `addTotalsToMap` (lines 182-187). -/
def addTotalsToMap (v : ReadoutData) : List (String × JSONValue) :=
  [("TotalPowerDeliveredLowTarif", .num v.TotalPowerDeliveredLowTarif),
   ("TotalPowerDeliveredPeakTarif", .num v.TotalPowerDeliveredPeakTarif),
   ("TotalPowerReceivedLowTarif", .num v.TotalPowerReceivedLowTarif),
   ("TotalPowerReceivedPeakTarif", .num v.TotalPowerReceivedPeakTarif)]

/-- The per-record body of `ReadoutsToJSON` (lines 128-167): build the map
`o` starting from `Timestamp`, add the field groups selected by the switch,
then marshal the map if it gained any field (`len(o) > 1`) and the whole
struct `v` otherwise. -/
def readoutToJSONEntry (retrieve : Int) (v : ReadoutData) : JSONEntry :=
  let o : List (String × JSONValue) := [("Timestamp", .str v.Timestamp)]
  let o :=
    if retrieve = Gas then o ++ addGasToMap v
    else if retrieve = Power then o ++ addPowerToMap v
    else if retrieve = Totals then o ++ addTotalsToMap v
    else if retrieve = Gas + Power then o ++ addGasToMap v ++ addPowerToMap v
    else if retrieve = Gas + Totals then o ++ addGasToMap v ++ addTotalsToMap v
    else if retrieve = Power + Totals then o ++ addPowerToMap v ++ addTotalsToMap v
    else o
  if o.length > 1 then .obj o else .record v

/-- Embedding of `ReadoutsToJSON` (lines 125-171): one entry per record. -/
def ReadoutsToJSON (readouts : List ReadoutData) (retrieve : Int) : List JSONEntry :=
  readouts.map (readoutToJSONEntry retrieve)

/-- The field names an entry serializes: the map's keys, or — for a whole
`ReadoutData` — its exported (capitalized) struct fields in declaration
order, which is how Go's `encoding/json` marshals the struct (the unexported
`timestamp` cache is omitted). -/
def entryKeys : JSONEntry → List String
  | .obj kvs => kvs.map (fun kv => kv.1)
  | .record _ =>
    ["Timestamp", "Tarif", "PowerReceived", "PowerDelivered", "GasReceived",
     "TotalPowerDeliveredLowTarif", "TotalPowerDeliveredPeakTarif",
     "TotalPowerReceivedLowTarif", "TotalPowerReceivedPeakTarif"]

/-! ## Claim C9 -/

/-- Claim C9: under projection `Gas`, every record serializes to an object
holding exactly the two fields `Timestamp` and `GasReceived`; every other
field is absent from the object rather than emitted as zero. -/
theorem readoutsToJSON_gas_fields (readouts : List ReadoutData) (v : ReadoutData) :
    ReadoutsToJSON readouts Gas = readouts.map (fun r =>
      .obj [("Timestamp", .str r.Timestamp), ("GasReceived", .num r.GasReceived)]) ∧
    entryKeys (readoutToJSONEntry Gas v) = ["Timestamp", "GasReceived"] := by
  constructor
  · simp [ReadoutsToJSON, readoutToJSONEntry, addGasToMap]
  · simp [readoutToJSONEntry, addGasToMap, entryKeys]

/-! ## Claim C10 -/

/-- Claim C10: a projection matching none of the six narrowing cases (`All`
included) serializes the whole record, whose output carries `Timestamp`,
`Tarif` and all the numeric fields; under each of the six narrowed
projections the `Tarif` field never appears. -/
theorem readoutsToJSON_tarif_presence (retrieve : Int) (v : ReadoutData) :
    (retrieve ∉ ([Gas, Power, Totals, Gas + Power, Gas + Totals, Power + Totals] : List Int) →
      readoutToJSONEntry retrieve v = .record v ∧
      entryKeys (readoutToJSONEntry retrieve v) =
        ["Timestamp", "Tarif", "PowerReceived", "PowerDelivered", "GasReceived",
         "TotalPowerDeliveredLowTarif", "TotalPowerDeliveredPeakTarif",
         "TotalPowerReceivedLowTarif", "TotalPowerReceivedPeakTarif"]) ∧
    (retrieve ∈ ([Gas, Power, Totals, Gas + Power, Gas + Totals, Power + Totals] : List Int) →
      "Tarif" ∉ entryKeys (readoutToJSONEntry retrieve v)) := by
  constructor
  · intro hmem
    simp only [Gas, Power, Totals, List.mem_cons, List.not_mem_nil, or_false, not_or] at hmem
    obtain ⟨h1, h2, h3, h4, h5, h6⟩ := hmem
    have h4' : ¬retrieve = 3 := by omega
    have h5' : ¬retrieve = 5 := by omega
    have h6' : ¬retrieve = 6 := by omega
    clear h4 h5 h6
    rename' h4' => h4, h5' => h5, h6' => h6
    constructor
    · simp [readoutToJSONEntry, Gas, Power, Totals, h1, h2, h3, h4, h5, h6]
    · simp [readoutToJSONEntry, entryKeys, Gas, Power, Totals, h1, h2, h3, h4, h5, h6]
  · intro hmem
    simp only [Gas, Power, Totals, List.mem_cons, List.not_mem_nil, or_false] at hmem
    rcases hmem with rfl | rfl | rfl | rfl | rfl | rfl <;>
      simp [readoutToJSONEntry, entryKeys, Gas, Power, Totals,
        addGasToMap, addPowerToMap, addTotalsToMap]

/-- Witness for claim C10 at the projections `All` (whole record) and `Gas`
(no `Tarif`). -/
theorem readoutsToJSON_tarif_presence_witness :
    All ∉ ([Gas, Power, Totals, Gas + Power, Gas + Totals, Power + Totals] : List Int) ∧
    readoutToJSONEntry All readoutAt0 = .record readoutAt0 ∧
    Gas ∈ ([Gas, Power, Totals, Gas + Power, Gas + Totals, Power + Totals] : List Int) ∧
    "Tarif" ∉ entryKeys (readoutToJSONEntry Gas readoutAt0) :=
  ⟨by decide, ((readoutsToJSON_tarif_presence All readoutAt0).1 (by decide)).1,
   by decide, (readoutsToJSON_tarif_presence Gas readoutAt0).2 (by decide)⟩

end GoSmartmeter
